import Mathlib

/-!
Verification of the connectivity state machine in
`src/mesh/http/WiFiAPClient.cpp`.

The C++ file manages a device WiFi link: a periodic reconnect task
(`reconnectWiFi`), an SDK event handler (`WiFiEvent`), a one-shot service
startup gate (`onNetworkConnected` guarded by `APStartupComplete`), and small
accessors (`isWifiAvailable`, `getWifiDisconnectReason`).  We embed the
mutable globals as a state record, the commands issued to the external WiFi
stack and to dependent services as an action trace, and the SDK callbacks as
state-transition functions.  `WiFi.isConnected()` is the station-link status
maintained by the external arduino-esp32 stack: it becomes true when the
station obtains an IP address (`SYSTEM_EVENT_STA_GOT_IP`) and false on
`SYSTEM_EVENT_STA_DISCONNECTED` / `SYSTEM_EVENT_STA_LOST_IP`; we model that
stack behaviour alongside the module's own handler.
-/

namespace WiFiAP

/-- The fields of `config.network` read by this module (`wifi_enabled`,
`wifi_ssid`, `wifi_psk`).  C strings: a name is "configured" iff its first
character is non-NUL, i.e. iff the string is nonempty. -/
structure NetworkConfig where
  wifi_enabled : Bool
  wifi_ssid : String
  wifi_psk : String
deriving DecidableEq, Repr

/-- The module's mutable globals together with the external stack's station
connection status (`WiFi.isConnected()`). -/
structure WiFiState where
  needReconnect : Bool
  wifiDisconnectReason : Nat
  APStartupComplete : Bool
  connected : Bool
deriving DecidableEq, Repr

/-- Process-start state: `needReconnect = true` (the reconnector runs once at
the beginning), `wifiDisconnectReason = 0`, `APStartupComplete = false`, and
the station link is down. -/
def initState : WiFiState :=
  { needReconnect := true, wifiDisconnectReason := 0,
    APStartupComplete := false, connected := false }

/-- Clock-quality tags for `perhapsSetRTC` (time samples ranked by source
trustworthiness; this module only ever submits network-time-derived ones). -/
inductive RTCQuality where
  | none
  | NTP
  | GPS
deriving DecidableEq, Repr

/-- Commands issued to the external WiFi stack and calls into dependent
services, recorded as a trace. -/
inductive Action where
  | wifiDisconnect (wifioff : Bool) (eraseap : Bool)
  | wifiSetModeSTA
  | wifiSetModeNull
  | wifiBegin (ssid : String) (psk : Option String)
  | mdnsBegin
  | ntpClientBegin
  | initWebServer
  | initApiServer
  | mqttReconnect
  | ntpRequest
  | perhapsSetRTC (q : RTCQuality) (sec : Nat) (usec : Nat)
  | createSSLCert
  | setHostname
  | setAutoReconnect (onoff : Bool)
  | setSleep (onoff : Bool)
  | staticIpConfig
  | espWifiSetPsNone
  | createReconnectTask
deriving DecidableEq, Repr

/-- `true` on the `WiFi.begin(name, psk)` connect command. -/
def isConnectCmd : Action → Bool
  | .wifiBegin _ _ => true
  | _ => false

/-- `true` on the actions of the one-shot dependent-service initialization
block inside `onNetworkConnected`. -/
def isStartupInitAction : Action → Bool
  | .mdnsBegin => true
  | .ntpClientBegin => true
  | .initWebServer => true
  | .initApiServer => true
  | _ => false

/-- The SDK link events dispatched to `WiFiEvent`.  `staDisconnected` carries
the stack-supplied `info.wifi_sta_disconnected.reason`.  `staLostIp` also
carries the reason field present in the event-info union; the handler for
`SYSTEM_EVENT_STA_LOST_IP` ignores it (only the `STA_DISCONNECTED` lambda
registered in `initWifi` reads it).  All remaining cases of the C switch only
log and are grouped as `otherEvent`. -/
inductive WiFiEventT where
  | staDisconnected (reason : Nat)
  | staGotIp
  | staLostIp (reason : Nat)
  | apStart
  | staConnected
  | apStop
  | otherEvent
deriving DecidableEq, Repr

/-- `onNetworkConnected`: if `APStartupComplete` is still false, run the
service-initialization block (mDNS, NTP client start, web server, API server)
and set the flag; in every case, if the mqtt client exists, call
`mqtt->reconnect()`. -/
def onNetworkConnected (mqttPresent : Bool) (s : WiFiState) :
    WiFiState × List Action :=
  let (s1, acts1) :=
    if !s.APStartupComplete then
      ({ s with APStartupComplete := true },
       [Action.mdnsBegin, Action.ntpClientBegin,
        Action.initWebServer, Action.initApiServer])
    else (s, [])
  (s1, acts1 ++ (if mqttPresent then [Action.mqttReconnect] else []))

/-- Delivery of one SDK event.  Three things happen, in the stack's callback
context: (1) the external stack updates its own station status
(`WiFi.isConnected()`); (2) the lambda registered in `initWifi` for
`ARDUINO_EVENT_WIFI_STA_DISCONNECTED` stores the reason code into the
`uint8_t wifiDisconnectReason`; (3) the `WiFiEvent` switch runs:
`STA_DISCONNECTED` and `STA_LOST_IP` set `needReconnect = true`,
`STA_GOT_IP` and `AP_START` call `onNetworkConnected`, everything else only
logs. -/
def deliverEvent (mqttPresent : Bool) (e : WiFiEventT) (s : WiFiState) :
    WiFiState × List Action :=
  match e with
  | .staDisconnected r =>
      ({ s with connected := false, wifiDisconnectReason := r % 256,
                needReconnect := true }, [])
  | .staGotIp => onNetworkConnected mqttPresent { s with connected := true }
  | .staLostIp _ =>
      ({ s with connected := false, needReconnect := true }, [])
  | .apStart => onNetworkConnected mqttPresent s
  | _ => (s, [])

/-- Result of one run of the periodic task `reconnectWiFi`: the new state,
the commands issued, and the returned next delay in milliseconds. -/
structure TickResult where
  state : WiFiState
  actions : List Action
  nextDelay : Int
deriving DecidableEq, Repr

/-- `reconnectWiFi`, the body of the periodic reconnect task.  If wifi is
enabled, `needReconnect` is set and the stack is not connected: treat an
empty password as no password, and if the ssid is nonempty clear
`needReconnect`, issue `WiFi.disconnect(false, true)`, `WiFi.mode(STA)` and
`WiFi.begin(ssid, psk)`.  Independently, if the stack is connected, request
an NTP update (`ntpResult` is the outcome of `timeClient.update()`, carrying
`getEpochTime()` on success) and on success submit the epoch-second sample to
`perhapsSetRTC` with quality `RTCQualityNTP`.  Always return `43200 * 1000`
(12 hours). -/
def reconnectWiFi (cfg : NetworkConfig) (ntpResult : Option Nat)
    (s : WiFiState) : TickResult :=
  let wifiPsw : Option String :=
    if cfg.wifi_psk = "" then Option.none else Option.some cfg.wifi_psk
  let (s1, acts1) :=
    if cfg.wifi_enabled && s.needReconnect && !s.connected then
      if cfg.wifi_ssid ≠ "" then
        ({ s with needReconnect := false },
         [Action.wifiDisconnect false true, Action.wifiSetModeSTA,
          Action.wifiBegin cfg.wifi_ssid wifiPsw])
      else (s, [])
    else (s, [])
  let acts2 :=
    if s1.connected then
      Action.ntpRequest ::
        (match ntpResult with
         | Option.some t => [Action.perhapsSetRTC RTCQuality.NTP t 0]
         | Option.none => [])
    else []
  { state := s1, actions := acts1 ++ acts2, nextDelay := 43200 * 1000 }

/-- `isWifiAvailable`: true iff wifi is administratively enabled and
`wifi_ssid[0]` is non-NUL (nonempty name). -/
def isWifiAvailable (cfg : NetworkConfig) : Bool :=
  if cfg.wifi_enabled && cfg.wifi_ssid ≠ "" then true else false

/-- `getWifiDisconnectReason`: read the stored reason code. -/
def getWifiDisconnectReason (s : WiFiState) : Nat :=
  s.wifiDisconnectReason

/-- `initWifi`: when wifi is enabled and an ssid is configured, create the
SSL cert, normalize an empty password to no password, set station mode,
hostname, event handlers, auto-reconnect, sleep off, optional static IP
config, disable radio power saving, and create the periodic reconnect task.
It issues no `WiFi.begin` itself; the first connect happens on the first tick
of the reconnect task.  Returns true iff wifi was set up. -/
def initWifi (cfg : NetworkConfig) (staticIp : Bool) : Bool × List Action :=
  if cfg.wifi_enabled && cfg.wifi_ssid ≠ "" then
    (true,
     if cfg.wifi_ssid ≠ "" then
       [Action.createSSLCert, Action.wifiSetModeSTA, Action.setHostname,
        Action.setAutoReconnect true, Action.setSleep false] ++
       (if staticIp then [Action.staticIpConfig] else []) ++
       [Action.espWifiSetPsNone, Action.createReconnectTask]
     else [Action.createSSLCert])
  else (false, [])

/-- One step of a process run: either an SDK link event is delivered, or the
periodic reconnect task ticks (with the NTP outcome for that tick). -/
inductive Step where
  | ev (e : WiFiEventT)
  | tick (ntpResult : Option Nat)
deriving DecidableEq, Repr

/-- Apply one step to a state, yielding the new state and the actions it
emitted. -/
def applyStep (cfg : NetworkConfig) (mqttPresent : Bool) (st : Step)
    (s : WiFiState) : WiFiState × List Action :=
  match st with
  | .ev e => deliverEvent mqttPresent e s
  | .tick ntp =>
      let r := reconnectWiFi cfg ntp s
      (r.state, r.actions)

/-- Run a sequence of steps from a state, accumulating the action trace. -/
def runSteps (cfg : NetworkConfig) (mqttPresent : Bool) (s : WiFiState) :
    List Step → WiFiState × List Action
  | [] => (s, [])
  | st :: rest =>
      ((runSteps cfg mqttPresent (applyStep cfg mqttPresent st s).1 rest).1,
       (applyStep cfg mqttPresent st s).2 ++
         (runSteps cfg mqttPresent (applyStep cfg mqttPresent st s).1
           rest).2)

/-- A full process run: `initWifi` at process start, then a sequence of link
events and scheduler ticks from `initState`; the trace is the concatenation
of both phases' actions. -/
def processRun (cfg : NetworkConfig) (mqttPresent : Bool) (staticIp : Bool)
    (steps : List Step) : WiFiState × List Action :=
  ((runSteps cfg mqttPresent initState steps).1,
   (initWifi cfg staticIp).2 ++
     (runSteps cfg mqttPresent initState steps).2)

/-- A step is a "became usable" event: station got an IP address or the
access point started (the two cases of the switch that call
`onNetworkConnected`). -/
def isUsableStep : Step → Bool
  | .ev .staGotIp => true
  | .ev .apStart => true
  | _ => false

/-- `true` when a trace contains no `WiFi.begin` connect command. -/
def noConnectCmd (l : List Action) : Bool :=
  l.all (fun a => !isConnectCmd a)

/-- `true` on a `perhapsSetRTC` time-sample submission. -/
def isRTCSample : Action → Bool
  | .perhapsSetRTC _ _ _ => true
  | _ => false

/-- `true` when a trace submits no time sample to the clock-quality
arbiter. -/
def noRTCSample (l : List Action) : Bool :=
  l.all (fun a => !isRTCSample a)

/-- Number of dependent-service initialization actions in a trace (a single
execution of the one-shot block contributes 4: mDNS, NTP client start, web
server, API server). -/
def startupInitCount (l : List Action) : Nat :=
  (l.filter (fun a => isStartupInitAction a)).length

/-- `true` when every `WiFi.begin` command in the trace carries an absent
(NULL) secret. -/
def beginCmdsSecretAbsent (l : List Action) : Bool :=
  l.all (fun a =>
    match a with
    | .wifiBegin _ p => p.isNone
    | _ => true)

/-- A sample configuration with a password, used to instantiate theorems. -/
def cfgMyNet : NetworkConfig :=
  { wifi_enabled := true, wifi_ssid := "MyNet", wifi_psk := "pw" }

/-- A sample configuration with an empty password. -/
def cfgNoPsk : NetworkConfig :=
  { wifi_enabled := true, wifi_ssid := "MyNet", wifi_psk := "" }

/-- C6: `isWifiAvailable` is false whenever the configured network name is
empty, regardless of the enabled flag, and is true exactly when the enabled
flag is set and the name is nonempty. -/
theorem c6_isWifiAvailable_spec (cfg : NetworkConfig) :
    (cfg.wifi_ssid = "" → isWifiAvailable cfg = false) ∧
    (isWifiAvailable cfg = true ↔
      cfg.wifi_enabled = true ∧ cfg.wifi_ssid ≠ "") := by
  constructor
  · intro h
    simp [isWifiAvailable, h]
  · simp [isWifiAvailable]

/-- Witness for C6 at concrete configurations: empty name with the flag set
gives unavailable; `cfgMyNet` gives available. -/
theorem c6_isWifiAvailable_spec_witness :
    isWifiAvailable ⟨true, "", "pw"⟩ = false ∧
    isWifiAvailable cfgMyNet = true :=
  ⟨(c6_isWifiAvailable_spec _).1 rfl,
   (c6_isWifiAvailable_spec cfgMyNet).2.mpr ⟨rfl, by decide⟩⟩

/-- C9: the reconnect tick returns the constant next delay `43200 * 1000`
milliseconds for every configuration, NTP outcome and state. -/
theorem c9_tick_constant_delay (cfg : NetworkConfig) (ntp : Option Nat)
    (s : WiFiState) :
    (reconnectWiFi cfg ntp s).nextDelay = 43200 * 1000 := by
  cases he : cfg.wifi_enabled <;> cases hn : s.needReconnect <;>
    cases hc : s.connected <;> cases ntp <;>
    simp [reconnectWiFi, he, hn, hc]

/-- C7: one execution of the reconnect tick never changes the stored
disconnect reason: `getWifiDisconnectReason` returns the same value on the
state before and after any tick. -/
theorem c7_tick_preserves_reason (cfg : NetworkConfig) (ntp : Option Nat)
    (s : WiFiState) :
    getWifiDisconnectReason (reconnectWiFi cfg ntp s).state =
      getWifiDisconnectReason s := by
  cases he : cfg.wifi_enabled <;> cases hn : s.needReconnect <;>
    cases hc : s.connected <;> cases ntp <;>
    simp [reconnectWiFi, getWifiDisconnectReason, he, hn, hc] <;>
    split <;> rfl

/-- C4 counterexample: the claim says an address-lost event sets
`DisconnectReason` to that event's reason code.  Delivering
`SYSTEM_EVENT_STA_LOST_IP` carrying reason 8 to the start state does set
`needReconnect`, but leaves `wifiDisconnectReason` at 0 (only the
`STA_DISCONNECTED` lambda writes it), so `lastDisconnectReason()` does not
return 8. -/
theorem c4_lost_ip_reason_counterexample :
    (deliverEvent true (WiFiEventT.staLostIp 8) initState).1.needReconnect
      = true ∧
    getWifiDisconnectReason
      (deliverEvent true (WiFiEventT.staLostIp 8) initState).1 = 0 ∧
    (0 : Nat) ≠ 8 :=
  ⟨rfl, rfl, by decide⟩

/-- C4 (amended): a disconnected event sets `needReconnect` and stores its
reason code (as a `uint8_t`), so `lastDisconnectReason()` returns it; an
address-lost event sets `needReconnect` but leaves the stored reason
unchanged. -/
theorem c4_down_event_effects (m : Bool) (r : Nat) (s : WiFiState) :
    ((deliverEvent m (WiFiEventT.staDisconnected r) s).1.needReconnect
        = true ∧
      getWifiDisconnectReason
        (deliverEvent m (WiFiEventT.staDisconnected r) s).1 = r % 256) ∧
    ((deliverEvent m (WiFiEventT.staLostIp r) s).1.needReconnect = true ∧
      getWifiDisconnectReason (deliverEvent m (WiFiEventT.staLostIp r) s).1
        = getWifiDisconnectReason s) :=
  ⟨⟨rfl, rfl⟩, ⟨rfl, rfl⟩⟩

/-- C5: when the mqtt client exists, both entries to Up — station address
acquired and access-point startup — invoke `mqtt->reconnect()`, and the two
event kinds emit exactly the same action trace (the merged "became usable"
signal), for every state, including states where the startup gate has
already fired. -/
theorem c5_reconnect_hook_on_up (m : Bool) (s : WiFiState) (h : m = true) :
    Action.mqttReconnect ∈ (deliverEvent m WiFiEventT.staGotIp s).2 ∧
    (deliverEvent m WiFiEventT.staGotIp s).2 =
      (deliverEvent m WiFiEventT.apStart s).2 := by
  subst h
  cases hAP : s.APStartupComplete <;>
    simp [deliverEvent, onNetworkConnected, hAP]

/-- Witness for C5 at a state where the startup gate has already fired (a
repeated entry to Up). -/
theorem c5_reconnect_hook_on_up_witness :
    Action.mqttReconnect ∈
      (deliverEvent true WiFiEventT.staGotIp ⟨false, 0, true, true⟩).2 ∧
    (deliverEvent true WiFiEventT.staGotIp ⟨false, 0, true, true⟩).2 =
      (deliverEvent true WiFiEventT.apStart ⟨false, 0, true, true⟩).2 :=
  c5_reconnect_hook_on_up true ⟨false, 0, true, true⟩ rfl

/-- C1 counterexample: the invariant `ReconnectIntent ⇒ LinkState ≠ Up`
fails at a reachable state.  From process start: a tick connects (clearing
`needReconnect`), the station gets an IP, a disconnect (reason 8) sets
`needReconnect`, and then the stack's own auto-reconnect delivers a new
got-IP event — which does not clear `needReconnect`.  The resulting
reachable state has `needReconnect = true` while the link is Up. -/
theorem c1_intent_up_counterexample :
    ((runSteps cfgNoPsk true initState
        [Step.tick Option.none, Step.ev WiFiEventT.staGotIp,
         Step.ev (WiFiEventT.staDisconnected 8),
         Step.ev WiFiEventT.staGotIp]).1.needReconnect = true) ∧
    ((runSteps cfgNoPsk true initState
        [Step.tick Option.none, Step.ev WiFiEventT.staGotIp,
         Step.ev (WiFiEventT.staDisconnected 8),
         Step.ev WiFiEventT.staGotIp]).1.connected = true) := by
  constructor <;> rfl

/-- C1 (amended): `ReconnectIntent` can be true while the link is Up (an
address-acquired event does not clear it), but the second half of the
claimed invariant holds: a scheduler tick taken while the link is Up never
issues a connect command — in every state, hence in every reachable one. -/
theorem c1_no_connect_while_up (cfg : NetworkConfig) (ntp : Option Nat)
    (s : WiFiState) (h : s.connected = true) :
    noConnectCmd (reconnectWiFi cfg ntp s).actions = true := by
  cases he : cfg.wifi_enabled <;> cases hn : s.needReconnect <;>
    cases ntp <;>
    simp [reconnectWiFi, noConnectCmd, isConnectCmd, he, hn, h]

/-- Witness for C1 (amended) at a concrete Up state with the reconnect flag
still set. -/
theorem c1_no_connect_while_up_witness :
    noConnectCmd
      (reconnectWiFi cfgMyNet Option.none ⟨true, 8, true, true⟩).actions
      = true :=
  c1_no_connect_while_up cfgMyNet Option.none ⟨true, 8, true, true⟩ rfl

/-- C3: on a scheduler tick, if wifi is enabled, `needReconnect` is set, the
link is not Up and a nonempty ssid is configured, then `needReconnect` is
cleared and the tick issues exactly the disconnect-then-connect sequence
(`WiFi.disconnect(false, true)`, station mode, `WiFi.begin` with the stored
credentials, an empty password normalized to absent); and if wifi is
disabled or the ssid is empty, the tick issues no connect command at all. -/
theorem c3_tick_reconnect_behavior (cfg : NetworkConfig) (ntp : Option Nat)
    (s : WiFiState) :
    (cfg.wifi_enabled = true → s.needReconnect = true →
      s.connected = false → cfg.wifi_ssid ≠ "" →
      (reconnectWiFi cfg ntp s).state.needReconnect = false ∧
      (reconnectWiFi cfg ntp s).actions =
        [Action.wifiDisconnect false true, Action.wifiSetModeSTA,
         Action.wifiBegin cfg.wifi_ssid
           (if cfg.wifi_psk = "" then Option.none
            else Option.some cfg.wifi_psk)]) ∧
    ((cfg.wifi_enabled = false ∨ cfg.wifi_ssid = "") →
      noConnectCmd (reconnectWiFi cfg ntp s).actions = true) := by
  constructor
  · intro he hn hc hs
    simp [reconnectWiFi, he, hn, hc, hs]
  · intro hor
    rcases hor with he | hs
    · cases hn : s.needReconnect <;> cases hc : s.connected <;>
        cases ntp <;>
        simp [reconnectWiFi, noConnectCmd, isConnectCmd, he, hn, hc]
    · cases he : cfg.wifi_enabled <;> cases hn : s.needReconnect <;>
        cases hc : s.connected <;> cases ntp <;>
        simp [reconnectWiFi, noConnectCmd, isConnectCmd, he, hn, hc, hs]

/-- Witness for C3: a tick at `cfgMyNet` from the start state issues the
disconnect / station-mode / connect sequence, and a tick with wifi disabled
issues no connect command. -/
theorem c3_tick_reconnect_behavior_witness :
    ((reconnectWiFi cfgMyNet Option.none initState).state.needReconnect
        = false ∧
      (reconnectWiFi cfgMyNet Option.none initState).actions =
        [Action.wifiDisconnect false true, Action.wifiSetModeSTA,
         Action.wifiBegin cfgMyNet.wifi_ssid
           (if cfgMyNet.wifi_psk = "" then Option.none
            else Option.some cfgMyNet.wifi_psk)]) ∧
    noConnectCmd
      (reconnectWiFi ⟨false, "MyNet", "pw"⟩ Option.none initState).actions
      = true :=
  ⟨(c3_tick_reconnect_behavior cfgMyNet Option.none initState).1
      rfl rfl rfl (by decide),
   (c3_tick_reconnect_behavior ⟨false, "MyNet", "pw"⟩ Option.none
      initState).2 (Or.inl rfl)⟩

/-- C8: while the link is Up, each tick requests exactly one NTP time
sample; on success the epoch-second sample (zero microseconds) is submitted
to `perhapsSetRTC` tagged `RTCQualityNTP`; on failure no sample is
submitted.  While the link is not Up, no time sample is requested and none
is submitted. -/
theorem c8_ntp_refresh_behavior (cfg : NetworkConfig) (ntp : Option Nat)
    (s : WiFiState) :
    (s.connected = true →
      List.count Action.ntpRequest (reconnectWiFi cfg ntp s).actions = 1 ∧
      (∀ t, ntp = Option.some t →
        Action.perhapsSetRTC RTCQuality.NTP t 0 ∈
          (reconnectWiFi cfg ntp s).actions) ∧
      (ntp = Option.none →
        noRTCSample (reconnectWiFi cfg ntp s).actions = true)) ∧
    (s.connected = false →
      List.count Action.ntpRequest (reconnectWiFi cfg ntp s).actions = 0 ∧
      noRTCSample (reconnectWiFi cfg ntp s).actions = true) := by
  constructor
  · intro hc
    refine ⟨?_, ?_, ?_⟩
    · cases he : cfg.wifi_enabled <;> cases hn : s.needReconnect <;>
        cases ntp <;>
        simp [reconnectWiFi, he, hn, hc, List.count_cons]
    · intro t ht
      subst ht
      cases he : cfg.wifi_enabled <;> cases hn : s.needReconnect <;>
        simp [reconnectWiFi, he, hn, hc]
    · intro ht
      subst ht
      cases he : cfg.wifi_enabled <;> cases hn : s.needReconnect <;>
        simp [reconnectWiFi, noRTCSample, isRTCSample, he, hn, hc]
  · intro hc
    constructor
    · cases he : cfg.wifi_enabled <;> cases hn : s.needReconnect <;>
        cases ntp <;>
        simp [reconnectWiFi, he, hn, hc] <;>
        split <;> simp [List.count_cons, List.count_nil, hc]
    · cases he : cfg.wifi_enabled <;> cases hn : s.needReconnect <;>
        cases ntp <;>
        simp [reconnectWiFi, noRTCSample, isRTCSample, he, hn, hc] <;>
        split <;> simp [isRTCSample, hc]

/-- Witness for C8: an Up-state tick with a successful NTP sample at epoch
1700000000 requests once and submits the tagged sample; a Down-state tick
requests nothing. -/
theorem c8_ntp_refresh_behavior_witness :
    List.count Action.ntpRequest
      (reconnectWiFi cfgMyNet (Option.some 1700000000)
        ⟨false, 0, true, true⟩).actions = 1 ∧
    Action.perhapsSetRTC RTCQuality.NTP 1700000000 0 ∈
      (reconnectWiFi cfgMyNet (Option.some 1700000000)
        ⟨false, 0, true, true⟩).actions ∧
    List.count Action.ntpRequest
      (reconnectWiFi cfgMyNet (Option.some 1700000000)
        ⟨false, 0, false, false⟩).actions = 0 :=
  ⟨((c8_ntp_refresh_behavior cfgMyNet (Option.some 1700000000)
      ⟨false, 0, true, true⟩).1 rfl).1,
   ((c8_ntp_refresh_behavior cfgMyNet (Option.some 1700000000)
      ⟨false, 0, true, true⟩).1 rfl).2.1 1700000000 rfl,
   ((c8_ntp_refresh_behavior cfgMyNet (Option.some 1700000000)
      ⟨false, 0, false, false⟩).2 rfl).1⟩

theorem startupInitCount_append (a b : List Action) :
    startupInitCount (a ++ b) = startupInitCount a + startupInitCount b := by
  simp [startupInitCount, List.filter_append]

theorem reconnectWiFi_state_AP (cfg : NetworkConfig) (ntp : Option Nat)
    (s : WiFiState) :
    (reconnectWiFi cfg ntp s).state.APStartupComplete
      = s.APStartupComplete := by
  cases he : cfg.wifi_enabled <;> cases hn : s.needReconnect <;>
    cases hc : s.connected <;>
    simp [reconnectWiFi, he, hn, hc]
  all_goals (split <;> rfl)

theorem reconnectWiFi_startupInitCount (cfg : NetworkConfig)
    (ntp : Option Nat) (s : WiFiState) :
    startupInitCount (reconnectWiFi cfg ntp s).actions = 0 := by
  cases he : cfg.wifi_enabled <;> cases hn : s.needReconnect <;>
    cases hc : s.connected <;> cases ntp <;>
    simp [reconnectWiFi, startupInitCount, isStartupInitAction,
      he, hn, hc] <;>
    split <;> simp [isStartupInitAction, hc]

theorem applyStep_AP (cfg : NetworkConfig) (m : Bool) (st : Step)
    (s : WiFiState) :
    (applyStep cfg m st s).1.APStartupComplete
      = (s.APStartupComplete || isUsableStep st) := by
  cases st with
  | ev e =>
      cases e <;> cases hAP : s.APStartupComplete <;>
        simp [applyStep, deliverEvent, onNetworkConnected, isUsableStep,
          hAP]
  | tick ntp =>
      simp [applyStep, isUsableStep, reconnectWiFi_state_AP]

theorem applyStep_startupInitCount (cfg : NetworkConfig) (m : Bool)
    (st : Step) (s : WiFiState) :
    startupInitCount (applyStep cfg m st s).2 =
      if s.APStartupComplete = false ∧ isUsableStep st = true then 4
      else 0 := by
  cases st with
  | ev e =>
      cases e <;> cases hAP : s.APStartupComplete <;> cases m <;>
        simp [applyStep, deliverEvent, onNetworkConnected, isUsableStep,
          startupInitCount, isStartupInitAction, hAP]
  | tick ntp =>
      simp [applyStep, isUsableStep, reconnectWiFi_startupInitCount]

theorem runSteps_startupInitCount (cfg : NetworkConfig) (m : Bool)
    (steps : List Step) : ∀ s : WiFiState,
    startupInitCount (runSteps cfg m s steps).2 =
      if s.APStartupComplete = false ∧ steps.any isUsableStep = true
      then 4 else 0 := by
  induction steps with
  | nil =>
      intro s
      simp [runSteps, startupInitCount]
  | cons st rest ih =>
      intro s
      rw [runSteps, startupInitCount_append, applyStep_startupInitCount,
        ih (applyStep cfg m st s).1, applyStep_AP]
      cases hAP : s.APStartupComplete <;> cases hu : isUsableStep st <;>
        cases ha : rest.any isUsableStep <;>
        simp [List.any_cons, hAP, hu, ha]

theorem initWifi_startupInitCount (cfg : NetworkConfig)
    (staticIp : Bool) :
    startupInitCount (initWifi cfg staticIp).2 = 0 := by
  cases he : cfg.wifi_enabled <;> cases hst : staticIp <;>
    simp [initWifi, startupInitCount, isStartupInitAction, he, hst] <;>
    split <;> simp [isStartupInitAction]

/-- C2: over a full process run, the dependent-service initialization block
(four actions: mDNS, NTP client start, web server, API server) runs exactly
once when the run contains at least one "became usable" event (station got
IP or access point started), and not at all otherwise.  Instantiating the
sequence at each prefix shows the single execution happens on the first
usable event and all later ones skip it. -/
theorem c2_startup_gate_once (cfg : NetworkConfig) (m staticIp : Bool)
    (steps : List Step) :
    startupInitCount (processRun cfg m staticIp steps).2 =
      if steps.any isUsableStep = true then 4 else 0 := by
  rw [processRun]
  simp only [startupInitCount_append, initWifi_startupInitCount,
    runSteps_startupInitCount, initState]
  simp

theorem beginCmdsSecretAbsent_append (a b : List Action) :
    beginCmdsSecretAbsent (a ++ b) =
      (beginCmdsSecretAbsent a && beginCmdsSecretAbsent b) := by
  simp [beginCmdsSecretAbsent, List.all_append]

theorem deliverEvent_beginSecretAbsent (m : Bool) (e : WiFiEventT)
    (s : WiFiState) :
    beginCmdsSecretAbsent (deliverEvent m e s).2 = true := by
  cases e <;> cases hAP : s.APStartupComplete <;> cases m <;>
    simp [deliverEvent, onNetworkConnected, beginCmdsSecretAbsent, hAP]

theorem reconnectWiFi_beginSecretAbsent (cfg : NetworkConfig)
    (ntp : Option Nat) (s : WiFiState) (h : cfg.wifi_psk = "") :
    beginCmdsSecretAbsent (reconnectWiFi cfg ntp s).actions = true := by
  cases he : cfg.wifi_enabled <;> cases hn : s.needReconnect <;>
    cases hc : s.connected <;> cases ntp <;>
    simp [reconnectWiFi, beginCmdsSecretAbsent, h, he, hn, hc] <;>
    split <;> simp [hc]

theorem applyStep_beginSecretAbsent (cfg : NetworkConfig) (m : Bool)
    (st : Step) (s : WiFiState) (h : cfg.wifi_psk = "") :
    beginCmdsSecretAbsent (applyStep cfg m st s).2 = true := by
  cases st with
  | ev e => simp [applyStep, deliverEvent_beginSecretAbsent]
  | tick ntp => simp [applyStep, reconnectWiFi_beginSecretAbsent _ _ _ h]

theorem runSteps_beginSecretAbsent (cfg : NetworkConfig) (m : Bool)
    (steps : List Step) (h : cfg.wifi_psk = "") : ∀ s : WiFiState,
    beginCmdsSecretAbsent (runSteps cfg m s steps).2 = true := by
  induction steps with
  | nil =>
      intro s
      simp [runSteps, beginCmdsSecretAbsent]
  | cons st rest ih =>
      intro s
      rw [runSteps, beginCmdsSecretAbsent_append,
        applyStep_beginSecretAbsent cfg m st s h,
        ih (applyStep cfg m st s).1]
      rfl

theorem initWifi_beginSecretAbsent (cfg : NetworkConfig)
    (staticIp : Bool) :
    beginCmdsSecretAbsent (initWifi cfg staticIp).2 = true := by
  cases he : cfg.wifi_enabled <;> cases hst : staticIp <;>
    simp [initWifi, beginCmdsSecretAbsent, he, hst] <;>
    split <;> simp

/-- C10: when the configured `wifi_psk` is the empty string, every
`WiFi.begin` command issued over a full process run — which covers both the
initial setup (which issues none itself) and every scheduler tick — carries
an absent (NULL) secret, never an empty string. -/
theorem c10_empty_psk_absent (cfg : NetworkConfig) (m staticIp : Bool)
    (steps : List Step) (h : cfg.wifi_psk = "") :
    beginCmdsSecretAbsent (processRun cfg m staticIp steps).2 = true := by
  rw [processRun, beginCmdsSecretAbsent_append,
    initWifi_beginSecretAbsent, runSteps_beginSecretAbsent cfg m steps h]
  rfl

/-- Witness for C10: a run at `cfgNoPsk` whose tick issues a connect
command has every connect secret absent. -/
theorem c10_empty_psk_absent_witness :
    beginCmdsSecretAbsent
      (processRun cfgNoPsk true false [Step.tick Option.none]).2 = true :=
  c10_empty_psk_absent cfgNoPsk true false [Step.tick Option.none] rfl

end WiFiAP
